import Mathlib

/-!
Shallow embedding of the replay-ingestion models of the Rocket-League-Replays
repository (rocket_league/apps/replays/models.py, serializers.py).

Conventions of the embedding:
* Python float fields (record_fps) are modelled as rationals, integer fields
  as Int, nullable fields as Option.
* Python truthiness (None, 0, 0.0 and the empty string are falsy) is made
  explicit by the truthyOpt* helpers.
* Python exceptions are modelled with Except; uncaught exceptions such as
  AttributeError from calling .groups() on None are explicit error values.
* Byte strings are lists of naturals; the pyrope header decode that is not
  part of this excerpt is modelled from the spec where noted.
-/

namespace RLReplays

/-- Python truthiness of a nullable integer field: None and 0 are falsy. -/
def truthyOptInt : Option Int → Bool
  | none => false
  | some n => decide (n ≠ 0)

/-- Python truthiness of a nullable float field: None and 0.0 are falsy. -/
def truthyOptRat : Option ℚ → Bool
  | none => false
  | some q => decide (q ≠ 0)

/-- Python truthiness of a nullable string field: None and the empty string are falsy. -/
def truthyOptStr : Option String → Bool
  | none => false
  | some s => decide (s ≠ "")

/-- Python int() truncation toward zero on a rational value. -/
def pyTrunc (q : ℚ) : Int :=
  if 0 ≤ q then Int.floor q else Int.ceil q

/-- Python divmod(a, b) on numbers: quotient is the floored division,
remainder is a - b * quotient. -/
def pyDivmod (a b : ℚ) : ℚ × ℚ :=
  (((Int.floor (a / b) : Int) : ℚ), a - b * ((Int.floor (a / b) : Int) : ℚ))

/-- Python format %02d: zero-pad a single-digit nonnegative integer to width two. -/
def pad2 (n : Int) : String :=
  if 0 ≤ n ∧ n < 10 then "0" ++ toString n else toString n

/-- Shared shape of the divmod-then-format code in Replay.match_length and
Goal.goal_time: divmod(calculation, 60) followed by the format
string %d:%02d applied to int(minutes) and int(seconds). -/
def clockFormat (calculation : ℚ) : String :=
  toString (pyTrunc (pyDivmod calculation 60).1) ++ ":" ++
    pad2 (pyTrunc (pyDivmod calculation 60).2)

/-- Formatting as the spec reads it: a whole number of seconds rendered as minutes
and zero-padded remaining seconds. Written from the spec sentence, to be
compared against the code's clockFormat. -/
def spec_minutes_seconds (t : Int) : String :=
  toString (t / 60) ++ ":" ++ pad2 (t % 60)

/-- The Replay model (models.py), restricted to the fields the claims touch.
The boolean column crashed_heatmap_parser of the source is written
crashed_heatmap_flag here. -/
structure Replay where
  pk : Option Nat
  replay_id : Option (List Nat)
  team_sizes : Option Nat
  team_0_score : Int
  team_1_score : Int
  map : Option Nat
  server_name : Option String
  timestamp : Option Int
  num_frames : Option Int
  record_fps : Option ℚ
  match_type : Option String
  crashed_heatmap_flag : Bool
  processed : Bool
deriving Repr, DecidableEq

/-- Replay.match_length (models.py lines 319-329): return N/A when
num_frames or record_fps is falsy, otherwise divmod(num_frames / record_fps, 60)
formatted as %d:%02d. -/
def Replay.match_length (r : Replay) : String :=
  if !truthyOptInt r.num_frames || !truthyOptRat r.record_fps then "N/A"
  else clockFormat (((r.num_frames.getD 0 : Int) : ℚ) / r.record_fps.getD 0)

/-- The Goal model (models.py lines 748-787), restricted to the fields the
claims touch; frame is a nullable IntegerField with no declared validators. -/
structure Goal where
  number : Nat
  player : Nat
  frame : Option Int
deriving Repr, DecidableEq

/-- Goal.goal_time (models.py lines 768-778): return N/A when the goal's
frame or the owning replay's record_fps is falsy, otherwise
divmod(frame / record_fps, 60) formatted as %d:%02d. -/
def Goal.goal_time (g : Goal) (replay : Replay) : String :=
  if !truthyOptInt g.frame || !truthyOptRat replay.record_fps then "N/A"
  else clockFormat (((g.frame.getD 0 : Int) : ℚ) / replay.record_fps.getD 0)

/-- Python exceptions that can escape the property bodies below. -/
inductive PyExn
  | attributeError
  | indexError
deriving Repr, DecidableEq

/-- Replay.region (models.py lines 298-304): N/A for a falsy server_name;
otherwise re.search(settings.SERVER_REGEX, server_name).groups()[1], where a
failed search returns None and calling .groups() on None raises
AttributeError. The configured pattern is abstracted as the search function. -/
def Replay.region (r : Replay) (search : String → Option (List String)) :
    Except PyExn String :=
  if !truthyOptStr r.server_name then .ok "N/A"
  else
    match search (r.server_name.getD "") with
    | none => .error .attributeError
    | some groups =>
      match groups.get? 1 with
      | none => .error .indexError
      | some g => .ok g

/-- Helper replay record with only num_frames and record_fps populated. -/
def mkReplay (nf : Option Int) (fps : Option ℚ) : Replay :=
  ⟨none, none, none, 0, 0, none, none, none, nf, fps, none, false, false⟩

theorem pyTrunc_intCast (k : Int) : pyTrunc ((k : Int) : ℚ) = k := by
  unfold pyTrunc
  split
  · exact Int.floor_intCast k
  · exact Int.ceil_intCast k

theorem floor_div_sixty (a : ℚ) : Int.floor (a / 60) = Int.floor a / 60 := by
  apply le_antisymm
  · rw [Int.le_ediv_iff_mul_le (by norm_num : (0:Int) < 60), Int.le_floor]
    push_cast
    rw [← le_div_iff₀ (by norm_num : (0:ℚ) < 60)]
    exact Int.floor_le (a / 60)
  · rw [Int.le_floor, le_div_iff₀ (by norm_num : (0:ℚ) < 60)]
    calc ((Int.floor a / 60 : Int) : ℚ) * 60
        = ((Int.floor a / 60 * 60 : Int) : ℚ) := by push_cast; ring
      _ ≤ ((Int.floor a : Int) : ℚ) := by
          exact_mod_cast Int.ediv_mul_le (Int.floor a) (by norm_num)
      _ ≤ a := Int.floor_le a

theorem clockFormat_eq_spec (c : ℚ) :
    clockFormat c = spec_minutes_seconds (Int.floor c) := by
  have hfle : ((Int.floor (c / 60) : Int) : ℚ) ≤ c / 60 := Int.floor_le (c / 60)
  have hc : (60:ℚ) * (c / 60) = c := by ring
  have hs0 : 0 ≤ c - 60 * ((Int.floor (c / 60) : Int) : ℚ) := by
    have h1 : (60:ℚ) * ((Int.floor (c / 60) : Int) : ℚ) ≤ 60 * (c / 60) :=
      mul_le_mul_of_nonneg_left hfle (by norm_num)
    linarith
  have hfloor_s : Int.floor (c - 60 * ((Int.floor (c / 60) : Int) : ℚ)) =
      Int.floor c - 60 * Int.floor (c / 60) := by
    rw [show c - 60 * ((Int.floor (c / 60) : Int) : ℚ) =
        c - ((60 * Int.floor (c / 60) : Int) : ℚ) from by push_cast; ring]
    exact Int.floor_sub_int c _
  have hts : pyTrunc (c - 60 * ((Int.floor (c / 60) : Int) : ℚ)) =
      Int.floor c - 60 * Int.floor (c / 60) := by
    unfold pyTrunc
    rw [if_pos hs0, hfloor_s]
  unfold clockFormat pyDivmod spec_minutes_seconds
  rw [pyTrunc_intCast, hts, floor_div_sixty, Int.emod_def]

/-- The Player model (models.py lines 613-745), restricted to the roster
fields the claims mention. -/
structure Player where
  player_name : String
  team : Int
  score : Nat
  goals : Nat
  shots : Nat
  assists : Nat
  saves : Nat
  platform : Option String
  online_id : Option String
  actor_id : Nat
  unique_id : Option String
deriving Repr, DecidableEq

/-- A replay together with its roster and goal list, the tier-1 facts the
spec calls HeaderParsed facts. -/
structure MatchRecord where
  replay : Replay
  players : List Player
  goals : List Goal
deriving Repr, DecidableEq

/-- Modelled from the spec: parse_replay_netstream (imported in models.py
line 16 from a module absent from this excerpt) handles the tier-2 decode.
Per the spec, NetstreamFailed sets a standalone failure flag while the
HeaderParsed facts remain valid; the only column written on failure is the
crashed_heatmap_parser boolean (crashed_heatmap_flag here). -/
def recordNetstreamFailure (m : MatchRecord) : MatchRecord :=
  { m with replay := { m.replay with crashed_heatmap_flag := true } }

/-- Column names of the Replay model in declaration order (models.py
lines 86-264). -/
def replayModelFields : List String :=
  ["user", "season", "title", "playlist", "file", "heatmap_json_file",
   "location_json_file", "replay_id", "player_name", "player_team", "map",
   "server_name", "timestamp", "date_created", "team_sizes", "team_0_score",
   "team_1_score", "match_type", "privacy", "keyframe_delay", "max_channels",
   "max_replay_size_mb", "num_frames", "record_fps", "shot_data",
   "excitement_factor", "show_leaderboard", "average_rating",
   "crashed_heatmap_parser", "processed"]

/-- ReplaySerializer Meta.exclude (serializers.py line 63). -/
def replaySerializerExclude : List String :=
  ["user", "crashed_heatmap_parser"]

/-- Model columns exposed by ReplaySerializer: every model column except the
excluded ones, following the DRF semantics of Meta.exclude. -/
def replaySerializerFields : List String :=
  replayModelFields.filter (fun f => !replaySerializerExclude.contains f)

/-- Replay.eligible_for_feature (models.py lines 477-506): the patreon
pledge thresholds are 300 for playback and 1000 for boost_analysis; the
feature is granted when the uploader, or any rostered Steam player, pledges
at least the threshold. The pledge lookups are external collaborators and
enter as arguments. -/
def eligible_for_feature (patreon_amount : Nat) (uploader_pledge : Option Nat)
    (player_pledges : List Nat) : Bool :=
  (match uploader_pledge with
   | some pledge => decide (patreon_amount ≤ pledge)
   | none => false) ||
  player_pledges.any (fun pledge => decide (patreon_amount ≤ pledge))

/-- Patreon threshold of the playback feature (models.py line 479). -/
def playbackThreshold : Nat := 300

/-- Patreon threshold of the boost_analysis feature (models.py line 480). -/
def boostAnalysisThreshold : Nat := 1000

/-- Replay.queue_priority (models.py lines 508-518). The source comment says
it returns one of tournament, priority, general, but the body carries a TODO
for the tournament logic and only tests eligible_for_playback. -/
def queue_priority (eligible_for_playback : Bool) : String :=
  if eligible_for_playback then "priority" else "general"

/-- Django MinValueValidator: passes when the limit is at most the value. -/
def minValueValidator (limit v : Int) : Bool := decide (limit ≤ v)

/-- Django MaxValueValidator: passes when the value is at most the limit. -/
def maxValueValidator (limit v : Int) : Bool := decide (v ≤ limit)

/-- The BoostData model (models.py lines 870-889): one resource-gauge sample
per player per frame, value declared with MinValueValidator 0 and
MaxValueValidator 255. -/
structure BoostData where
  replay : Nat
  player : Nat
  frame : Nat
  value : Int
deriving Repr, DecidableEq

/-- Validation of BoostData.value as declared on the model
(models.py lines 883-885): both validators must pass; a failing validator
raises ValidationError so the row is rejected; a passing run stores the
sample with its value untouched. -/
def BoostData.runValidators (b : BoostData) : Except String BoostData :=
  if minValueValidator 0 b.value && maxValueValidator 255 b.value then .ok b
  else .error "value out of range"

/-- Validation of a Goal row as declared on the model (models.py
lines 748-766): number is a PositiveIntegerField; frame is a nullable
IntegerField that declares no validators, so no check relates it to the
owning replay's num_frames. -/
def goalFieldValidation (number : Int) (frame : Option Int) : Bool :=
  minValueValidator 0 number

/-- Decode failures of the binary reader and the header parse. -/
inductive DecodeError
  | unexpectedEndOfStream
  | invalidHeader
deriving Repr, DecidableEq

/-- Modelled from the spec: the Bitstream Reader of the replay decoder (the
pyrope package imported at models.py line 15 is absent from this excerpt).
A cursor over a byte buffer; reading past the end fails with
UnexpectedEndOfStream, surfaced in Python as bitstring.ReadError, and no
read ever returns partial data. -/
structure BitstreamReader where
  buf : List Nat
  pos : Nat
deriving Repr, DecidableEq

/-- Read one byte and advance the cursor, failing on truncation. -/
def readByte (r : BitstreamReader) : Except DecodeError (Nat × BitstreamReader) :=
  match r.buf.get? r.pos with
  | none => .error .unexpectedEndOfStream
  | some b => .ok (b, ⟨r.buf, r.pos + 1⟩)

/-- Read k bytes, failing with UnexpectedEndOfStream when fewer remain. -/
def readBytes : Nat → BitstreamReader → Except DecodeError (List Nat × BitstreamReader)
  | 0, r => .ok ([], r)
  | k + 1, r =>
    match readByte r with
    | .error e => .error e
    | .ok (b, r1) =>
      match readBytes k r1 with
      | .error e => .error e
      | .ok (bs, r2) => .ok (b :: bs, r2)

/-- Raw header as the upload-time decode returns it; id is the unique match
identifier models.py reads at line 587 as the header entry Id. -/
structure RawHeader where
  id : List Nat
deriving Repr, DecidableEq

/-- Modelled from the spec: the upload-time decode done by constructing a
Pyrope value over the file bytes (models.py line 581). The buffer declares
its end up front (first byte gives the identifier payload length) and the
payload must be fully present; a buffer truncated before the declared end
fails with UnexpectedEndOfStream, never with a plausible partial header. -/
def pyropeHeaderDecode (buf : List Nat) : Except DecodeError RawHeader :=
  match readByte ⟨buf, 0⟩ with
  | .error e => .error e
  | .ok (declared, r1) =>
    match readBytes declared r1 with
    | .error e => .error e
    | .ok (idBytes, _) => .ok ⟨idBytes⟩

/-- ValidationError outcomes Replay.clean can raise. -/
inductive CleanError
  | notAReplayFile
  | alreadyUploaded (existing : Replay)
deriving Repr, DecidableEq

/-- Replay.clean (models.py lines 571-595): an already-saved instance (pk
set) or one without a file is returned untouched; a file whose decode fails
with bitstring.ReadError raises the not-a-valid-replay ValidationError; a
decoded unique id already held by a row of the Replay table raises the
already-uploaded ValidationError pointing at the first such row; otherwise
replay_id is set from the header. db is the Replay table in queryset
order, fileBytes the uploaded file bytes or none when no file is set. -/
def Replay.clean (db : List Replay) (r : Replay) (fileBytes : Option (List Nat)) :
    Except CleanError Replay :=
  match r.pk with
  | some _ => .ok r
  | none =>
    match fileBytes with
    | none => .ok r
    | some buf =>
      match pyropeHeaderDecode buf with
      | .error _ => .error .notAReplayFile
      | .ok hdr =>
        match db.filter (fun e => decide (e.replay_id = some hdr.id)) with
        | [] => .ok { r with replay_id := some hdr.id }
        | e :: _ => .error (.alreadyUploaded e)

/-- One goal event as decoded from the header tier. -/
structure GoalEvent where
  number : Nat
  playerName : String
  frame : Int
deriving Repr, DecidableEq

/-- Decoded header property-table entries relevant to the goal invariant. -/
structure HeaderProps where
  id : Option (List Nat)
  team_0_score : Int
  team_1_score : Int
  goals : List GoalEvent
deriving Repr, DecidableEq

/-- Tier-1 facts committed by the header parse. -/
structure HeaderFacts where
  id : List Nat
  team_0_score : Int
  team_1_score : Int
  goals : List GoalEvent
deriving Repr, DecidableEq

/-- Modelled from the spec: parse_replay_header (imported at models.py
line 16 from a module absent from this excerpt) projects the decoded
property table into header facts; a missing unique match id is
InvalidHeader, and the goal list length must equal
team_0_score + team_1_score or the file is rejected. -/
def parse_replay_header (p : HeaderProps) : Except DecodeError HeaderFacts :=
  match p.id with
  | none => .error .invalidHeader
  | some i =>
    if (p.goals.length : Int) = p.team_0_score + p.team_1_score then
      .ok ⟨i, p.team_0_score, p.team_1_score, p.goals⟩
    else .error .invalidHeader

/-- Replay row committed from successfully parsed header facts. -/
def replayOfHeader (h : HeaderFacts) : Replay :=
  ⟨none, some h.id, none, h.team_0_score, h.team_1_score, none, none, none,
   none, some 30, none, false, false⟩

/-- ReplayPack.goals (models.py lines 828-834): zero for an empty pack,
otherwise the sum over the pack's replays of team_0_score + team_1_score. -/
def replayPackGoals (replays : List Replay) : Int :=
  if replays.length = 0 then 0
  else (replays.map (fun r => r.team_0_score + r.team_1_score)).sum

theorem readBytes_truncated :
    ∀ (k : Nat) (r : BitstreamReader), r.buf.length - r.pos < k →
      readBytes k r = .error .unexpectedEndOfStream := by
  intro k
  induction k with
  | zero => intro r h; exact absurd h (Nat.not_lt_zero _)
  | succ k ih =>
    intro r h
    unfold readBytes readByte
    cases hb : r.buf.get? r.pos with
    | none => rfl
    | some b =>
      have hlt : r.pos < r.buf.length := by
        by_contra hge
        rw [List.get?_eq_none.mpr (Nat.le_of_not_lt hge)] at hb
        cases hb
      have h2 : r.buf.length - (r.pos + 1) < k := by omega
      simp [ih ⟨r.buf, r.pos + 1⟩ h2]

/-- Helper replay record with only server_name populated. -/
def mkReplayServer (sn : Option String) : Replay :=
  ⟨none, none, none, 0, 0, none, sn, none, none, none, none, false, false⟩

/-- C1 counterexample: the tier-2 failure does not surface as a flag on the
visible match record: ReplaySerializer excludes the crashed_heatmap_parser
column from the serialized replay even though header-derived columns such as
team_0_score stay exposed. -/
theorem C1_flag_not_serialized :
    ¬ ("crashed_heatmap_parser" ∈ replaySerializerFields) ∧
    ("team_0_score" ∈ replaySerializerFields) := by decide

/-- C1 amended: a tier-2 (netstream) decode failure is recorded only in the
standalone crashed_heatmap_parser flag; every tier-1 column of the match
record (scores, team sizes, map, timestamp, frame count, recording rate,
match id) and the roster and goal list are left unchanged; the serializer
keeps exposing the header-derived columns, but the failure flag itself is
excluded from the serialized match record rather than surfaced on it. -/
theorem C1_netstream_failure_isolated (m : MatchRecord) :
    (recordNetstreamFailure m).replay.crashed_heatmap_flag = true ∧
    (recordNetstreamFailure m).replay.team_0_score = m.replay.team_0_score ∧
    (recordNetstreamFailure m).replay.team_1_score = m.replay.team_1_score ∧
    (recordNetstreamFailure m).replay.team_sizes = m.replay.team_sizes ∧
    (recordNetstreamFailure m).replay.map = m.replay.map ∧
    (recordNetstreamFailure m).replay.timestamp = m.replay.timestamp ∧
    (recordNetstreamFailure m).replay.num_frames = m.replay.num_frames ∧
    (recordNetstreamFailure m).replay.record_fps = m.replay.record_fps ∧
    (recordNetstreamFailure m).replay.replay_id = m.replay.replay_id ∧
    (recordNetstreamFailure m).players = m.players ∧
    (recordNetstreamFailure m).goals = m.goals ∧
    ("team_0_score" ∈ replaySerializerFields ∧
     "team_1_score" ∈ replaySerializerFields ∧
     "team_sizes" ∈ replaySerializerFields ∧
     "map" ∈ replaySerializerFields ∧
     "timestamp" ∈ replaySerializerFields ∧
     "num_frames" ∈ replaySerializerFields) ∧
    ¬ ("crashed_heatmap_parser" ∈ replaySerializerFields) :=
  ⟨rfl, rfl, rfl, rfl, rfl, rfl, rfl, rfl, rfl, rfl, rfl, by decide, by decide⟩

/-- C2: an upload whose decoded unique match id already appears on a stored
replay row is rejected by Replay.clean with the already-uploaded
ValidationError pointing at such a row, so nothing is committed; an upload
with a fresh id passes the check and has replay_id set from the header. -/
theorem C2_duplicate_guard (db : List Replay) (r : Replay) (buf : List Nat)
    (hdr : RawHeader) (hpk : r.pk = none)
    (hparse : pyropeHeaderDecode buf = .ok hdr) :
    ((∃ e ∈ db, e.replay_id = some hdr.id) →
      ∃ e ∈ db, e.replay_id = some hdr.id ∧
        Replay.clean db r (some buf) = .error (.alreadyUploaded e)) ∧
    ((∀ e ∈ db, e.replay_id ≠ some hdr.id) →
      Replay.clean db r (some buf) = .ok { r with replay_id := some hdr.id }) := by
  cases hfil : db.filter (fun e => decide (e.replay_id = some hdr.id)) with
  | nil =>
    constructor
    · rintro ⟨e, he, hid⟩
      have hmem : e ∈ db.filter (fun e => decide (e.replay_id = some hdr.id)) :=
        List.mem_filter.mpr ⟨he, decide_eq_true hid⟩
      rw [hfil] at hmem
      cases hmem
    · intro _
      simp only [Replay.clean, hpk, hparse, hfil]
  | cons e0 tl =>
    have hmem : e0 ∈ db.filter (fun e => decide (e.replay_id = some hdr.id)) := by
      rw [hfil]
      exact List.mem_cons_self e0 tl
    have h := List.mem_filter.mp hmem
    constructor
    · intro _
      exact ⟨e0, h.1, of_decide_eq_true h.2, by
        simp only [Replay.clean, hpk, hparse, hfil]⟩
    · intro hall
      exact absurd (of_decide_eq_true h.2) (hall e0 h.1)

/-- C2 witness: with one stored row holding id 65 66, uploading the file
2 65 66 is rejected pointing at that row; against an empty table the same
upload passes and replay_id is set from the header. -/
theorem C2_witness :
    Replay.clean
      [⟨some 1, some [65, 66], none, 0, 0, none, none, none, none, none, none,
        false, false⟩]
      (mkReplay none none) (some [2, 65, 66]) =
      .error (.alreadyUploaded
        ⟨some 1, some [65, 66], none, 0, 0, none, none, none, none, none, none,
         false, false⟩) ∧
    Replay.clean [] (mkReplay none none) (some [2, 65, 66]) =
      .ok { mkReplay none none with replay_id := some [65, 66] } := by
  constructor
  · have h := (C2_duplicate_guard
      [⟨some 1, some [65, 66], none, 0, 0, none, none, none, none, none, none,
        false, false⟩]
      (mkReplay none none) [2, 65, 66] ⟨[65, 66]⟩ rfl rfl).1
    obtain ⟨e, he, hid, hclean⟩ := h ⟨_, List.mem_cons_self _ _, rfl⟩
    rcases List.mem_singleton.mp he with rfl
    exact hclean
  · exact (C2_duplicate_guard [] (mkReplay none none) [2, 65, 66] ⟨[65, 66]⟩
      rfl rfl).2 (fun e he => absurd he (List.not_mem_nil e))

/-- C3: a buffer truncated before its declared end makes the header decode
fail with UnexpectedEndOfStream, and Replay.clean on such an upload raises
the not-a-valid-replay ValidationError instead of accepting the file or
committing a record. -/
theorem C3_truncated_upload_rejected (db : List Replay) (r : Replay)
    (declared : Nat) (rest : List Nat) (hpk : r.pk = none)
    (htrunc : rest.length < declared) :
    pyropeHeaderDecode (declared :: rest) = .error .unexpectedEndOfStream ∧
    Replay.clean db r (some (declared :: rest)) = .error .notAReplayFile := by
  have hrb : readBytes declared ⟨declared :: rest, 1⟩ =
      .error .unexpectedEndOfStream := by
    apply readBytes_truncated
    simpa using htrunc
  have hdec : pyropeHeaderDecode (declared :: rest) =
      .error .unexpectedEndOfStream := by
    simp only [pyropeHeaderDecode, readByte]
    simp [hrb]
  refine ⟨hdec, ?_⟩
  simp only [Replay.clean, hpk, hdec]

/-- C3 witness: the two-byte file 2 7 declares two identifier bytes but
carries one, and is rejected as not a valid replay file. -/
theorem C3_witness :
    ([7] : List Nat).length < 2 ∧
    Replay.clean [] (mkReplay none none) (some [2, 7]) = .error .notAReplayFile :=
  ⟨by decide, (C3_truncated_upload_rejected [] (mkReplay none none) 2 [7] rfl
    (by decide)).2⟩

/-- C4: whenever the header parse succeeds, the number of goal records
equals team_0_score + team_1_score, and ReplayPack.goals, which counts the
goals of a pack as the sum of the two team scores, agrees with the goal-list
length for the committed replay row. -/
theorem C4_goal_count_invariant (p : HeaderProps) (h : HeaderFacts)
    (hok : parse_replay_header p = .ok h) :
    (h.goals.length : Int) = h.team_0_score + h.team_1_score ∧
    replayPackGoals [replayOfHeader h] = (h.goals.length : Int) := by
  unfold parse_replay_header at hok
  split at hok
  · cases hok
  · split at hok
    · rename_i hc
      cases hok
      refine ⟨hc, ?_⟩
      simp [replayPackGoals, replayOfHeader]
      omega
    · cases hok

/-- C4 witness: a header with scores 2 and 1 and three goal events parses
and satisfies the invariant. -/
theorem C4_witness :
    parse_replay_header
      ⟨some [1], 2, 1, [⟨1, "A", 100⟩, ⟨2, "B", 2200⟩, ⟨3, "A", 5000⟩]⟩ =
      .ok ⟨[1], 2, 1, [⟨1, "A", 100⟩, ⟨2, "B", 2200⟩, ⟨3, "A", 5000⟩]⟩ ∧
    (([⟨1, "A", 100⟩, ⟨2, "B", 2200⟩, ⟨3, "A", 5000⟩] : List GoalEvent).length :
      Int) = 2 + 1 :=
  ⟨rfl, (C4_goal_count_invariant
    ⟨some [1], 2, 1, [⟨1, "A", 100⟩, ⟨2, "B", 2200⟩, ⟨3, "A", 5000⟩]⟩
    ⟨[1], 2, 1, [⟨1, "A", 100⟩, ⟨2, "B", 2200⟩, ⟨3, "A", 5000⟩]⟩ rfl).1⟩

/-- C5: a stored resource-gauge sample passes validation exactly when its
value lies between 0 and 255, and validation either returns the sample with
the value untouched or rejects it - out-of-range values are dropped, never
clamped into range and never propagated. -/
theorem C5_boost_value_bounded (b : BoostData) :
    (BoostData.runValidators b = .ok b ↔ 0 ≤ b.value ∧ b.value ≤ 255) ∧
    (BoostData.runValidators b = .ok b ∨
      BoostData.runValidators b = .error "value out of range") := by
  unfold BoostData.runValidators minValueValidator maxValueValidator
  rcases le_or_lt 0 b.value with h0 | h0
  · rcases le_or_lt b.value 255 with h255 | h255
    · simp [h0, h255]
    · simp [h0, not_le.mpr h255]
  · simp [not_le.mpr h0]

/-- C5 witness: value 77 is stored untouched, value 300 is rejected. -/
theorem C5_witness :
    BoostData.runValidators ⟨1, 1, 10, 77⟩ = .ok ⟨1, 1, 10, 77⟩ ∧
    BoostData.runValidators ⟨1, 1, 10, 300⟩ = .error "value out of range" := by
  constructor
  · exact (C5_boost_value_bounded ⟨1, 1, 10, 77⟩).1.mpr (by decide)
  · rcases (C5_boost_value_bounded ⟨1, 1, 10, 300⟩).2 with hok | herr
    · exact absurd ((C5_boost_value_bounded ⟨1, 1, 10, 300⟩).1.mp hok)
        (by decide)
    · exact herr

/-- C6 counterexample: Replay.queue_priority never returns tournament for
either value of the only input it examines, so the tournament class is
unreachable. -/
theorem C6_tournament_unreachable :
    queue_priority true ≠ "tournament" ∧ queue_priority false ≠ "tournament" := by
  decide

/-- C6 amended: the assigned queue priority is one of exactly two reachable
values - priority when the replay is eligible for playback and general
otherwise; the tournament class announced in the source comment is
unimplemented (the body carries a TODO) and is never returned. -/
theorem C6_two_priority_classes :
    (∀ e, queue_priority e = "priority" ∨ queue_priority e = "general") ∧
    queue_priority true = "priority" ∧ queue_priority false = "general" := by
  refine ⟨?_, rfl, rfl⟩
  intro e
  cases e
  · exact Or.inr rfl
  · exact Or.inl rfl

/-- C7: for positive num_frames and record_fps, match_length renders
floor(num_frames / record_fps) seconds as minutes and zero-padded seconds,
and the spec scenario of 5400 frames at 30 fps yields 3:00. -/
theorem C7_match_length_format (n : Int) (q : ℚ) (hn : 0 < n) (hq : 0 < q) :
    Replay.match_length (mkReplay (some n) (some q)) =
      spec_minutes_seconds (Int.floor ((n : ℚ) / q)) ∧
    Replay.match_length (mkReplay (some 5400) (some 30)) = "3:00" := by
  have hgen : ∀ (m : Int) (p : ℚ), m ≠ 0 → p ≠ 0 →
      Replay.match_length (mkReplay (some m) (some p)) =
        spec_minutes_seconds (Int.floor ((m : ℚ) / p)) := by
    intro m p hm hp
    simp [Replay.match_length, mkReplay, truthyOptInt, truthyOptRat, hm, hp,
      clockFormat_eq_spec]
  constructor
  · exact hgen n q hn.ne' hq.ne'
  · have h5400 : Int.floor (((5400 : Int) : ℚ) / (30 : ℚ)) = 180 := by norm_num
    rw [hgen 5400 30 (by norm_num) (by norm_num), h5400]
    decide

/-- C7 witness: the spec scenario itself, 5400 frames at 30 fps. -/
theorem C7_witness :
    (0 : Int) < 5400 ∧ (0 : ℚ) < 30 ∧
    Replay.match_length (mkReplay (some 5400) (some 30)) = "3:00" :=
  ⟨by decide, by decide, (C7_match_length_format 5400 30 (by decide)
    (by decide)).2⟩

/-- C8 counterexample: under the spec scenario num_frames = 5400, a Goal row
with frame 6000 and one with frame -3 both pass the declared field
validation although both frames lie outside the range 0 to 5399. -/
theorem C8_out_of_range_frame_accepted :
    goalFieldValidation 1 (some 6000) = true ∧
    ¬ ((0 : Int) ≤ 6000 ∧ (6000 : Int) < 5400) ∧
    goalFieldValidation 1 (some (-3)) = true ∧
    ¬ ((0 : Int) ≤ -3) := by decide

/-- C8 amended: the Goal model declares no frame validator, so storing a
goal is never rejected for its frame value: field validation accepts any
frame - null, negative or at least num_frames - and its outcome depends
only on the number column. -/
theorem C8_no_frame_validation (number : Int) (frame : Option Int)
    (hnum : 0 ≤ number) :
    goalFieldValidation number frame = true := by
  unfold goalFieldValidation minValueValidator
  exact decide_eq_true hnum

/-- C8 witness: goal number 1 with the out-of-range frame 6000 validates. -/
theorem C8_witness :
    (0 : Int) ≤ 1 ∧ goalFieldValidation 1 (some 6000) = true :=
  ⟨by decide, C8_no_frame_validation 1 (some 6000) (by decide)⟩

/-- C9: a goal at frame 0 or with no record_fps reports N/A instead of a
time, and match_length reports N/A whenever num_frames or record_fps is
missing or zero, so neither property reaches its division with a zero
divisor. -/
theorem C9_degenerate_inputs (f : Option Int) (fps : Option ℚ) (g : Goal) :
    Goal.goal_time ⟨g.number, g.player, some 0⟩ (mkReplay f fps) = "N/A" ∧
    Goal.goal_time g (mkReplay f none) = "N/A" ∧
    Goal.goal_time g (mkReplay f (some 0)) = "N/A" ∧
    Replay.match_length (mkReplay none fps) = "N/A" ∧
    Replay.match_length (mkReplay (some 0) fps) = "N/A" ∧
    Replay.match_length (mkReplay f none) = "N/A" ∧
    Replay.match_length (mkReplay f (some 0)) = "N/A" := by
  refine ⟨?_, ?_, ?_, ?_, ?_, ?_, ?_⟩ <;>
    simp [Goal.goal_time, Replay.match_length, mkReplay, truthyOptInt,
      truthyOptRat]

/-- C10: an empty or missing server_name yields region N/A, but a non-empty
server_name that the configured pattern does not match makes region raise
AttributeError (groups() called on the None that re.search returned) rather
than return a fallback. -/
theorem C10_region_behaviour (sn : Option String) (s : String)
    (search : String → Option (List String))
    (hna : sn = none ∨ sn = some "") (hs : s ≠ "") (hmiss : search s = none) :
    Replay.region (mkReplayServer sn) search = .ok "N/A" ∧
    Replay.region (mkReplayServer (some s)) search = .error .attributeError := by
  constructor
  · rcases hna with rfl | rfl <;>
      simp [Replay.region, mkReplayServer, truthyOptStr]
  · simp [Replay.region, mkReplayServer, truthyOptStr, hs, hmiss]

/-- C10 witness: a missing server name gives N/A while the non-matching name
unknown-server raises AttributeError under a search that finds nothing. -/
theorem C10_witness :
    ("unknown-server" : String) ≠ "" ∧
    Replay.region (mkReplayServer none) (fun _ => none) = .ok "N/A" ∧
    Replay.region (mkReplayServer (some "unknown-server")) (fun _ => none) =
      .error .attributeError := by
  refine ⟨by decide, ?_, ?_⟩
  · exact (C10_region_behaviour none "unknown-server" (fun _ => none)
      (Or.inl rfl) (by decide) rfl).1
  · exact (C10_region_behaviour none "unknown-server" (fun _ => none)
      (Or.inl rfl) (by decide) rfl).2

end RLReplays
